import Mathlib

/-!
Verification of the FRIDAY voice-assistant core: a shallow embedding of the
Python sources (`backend/core/audio_engine.py`, `backend/core/ai_engine.py`,
`backend/core/friday_wake_word.py`, `frontend/desktop/gui/main_window.py`)
together with theorems settling the specification claims about them.

Audio byte buffers are modelled as `String` (Python `bytes` values whose
content never matters beyond emptiness and length) or, for PCM frames, as
lists of sample values.  External collaborators (cloud TTS services, audio
devices, playback backends) are modelled by environment records carrying the
outcome each collaborator would produce for the call under study.
-/

set_option autoImplicit false

namespace Friday

/-! ### Python string primitives -/

/-- Model of Python `str.strip()` / `bytes.strip()` on a character list:
drop whitespace from both ends. -/
def stripChars (s : List Char) : List Char :=
  ((s.dropWhile Char.isWhitespace).reverse.dropWhile Char.isWhitespace).reverse

/-- Model of Python `str.strip()`. -/
def pyStrip (s : String) : String :=
  String.mk (stripChars s.data)

/-- Model of Python `str.lower()` (ASCII case folding suffices here). -/
def pyLower (s : String) : String :=
  String.mk (s.data.map Char.toLower)

/-- One pass of Python `str.replace`: scan left to right, replacing each
non-overlapping occurrence of `pat` by `repl`.  `fuel` bounds the recursion;
`fuel = s.length` is always enough because every step consumes at least one
character of the input when `pat` is non-empty. -/
def replaceFuel (pat repl : List Char) : Nat → List Char → List Char
  | _, [] => []
  | 0, s => s
  | fuel + 1, c :: rest =>
    if pat.isPrefixOf (c :: rest) then
      repl ++ replaceFuel pat repl fuel ((c :: rest).drop pat.length)
    else
      c :: replaceFuel pat repl fuel rest

/-- Model of Python `str.replace(pat, repl)` (all occurrences). -/
def pyReplace (s pat repl : String) : String :=
  if pat.data.isEmpty then s
  else String.mk (replaceFuel pat.data repl.data s.data.length s.data)

/-- Model of Python `needle in haystack` on strings (substring containment). -/
def strContains (hay needle : List Char) : Bool :=
  match hay with
  | [] => needle.isEmpty
  | c :: rest => needle.isPrefixOf (c :: rest) || strContains rest needle

/-! ### `audio_engine.record_audio_improved` (endpointed recorder)

A PCM frame is the list of signed 16-bit samples obtained by unpacking one
`chunk_size` read from the input stream (`struct.unpack` in the source).  The
environment supplies the list of frames that the stream yields before the
`max_duration` time bound (or an external `stop_recording`) would end the
`while` loop; the silence heuristic may stop the loop earlier. -/

/-- One recorded PCM frame: its unpacked signed samples. -/
abbrev Frame := List Int

/-- Per-frame peak amplitude: `max(abs(x) for x in audio_data)`. -/
def volume (f : Frame) : Nat :=
  f.foldl (fun m x => max m x.natAbs) 0

/-- Source constant `silence_threshold = 30` — number of silent chunks before stopping. -/
def silence_threshold : Nat := 30

/-- Source constant `min_recording_chunks = 10` — minimum chunks to record. -/
def min_recording_chunks : Nat := 10

/-- Source energy threshold `500` — `if volume > 500: voice detected`. -/
def voice_volume_threshold : Nat := 500

/-- The recording `while` loop of `record_audio_improved`: each iteration
appends the frame just read, updates the consecutive-silence counter, and
breaks once `len(frames) > min_recording_chunks and
silence_count > silence_threshold`. -/
def recordLoop : List Frame → List Frame → Nat → List Frame
  | [], acc, _ => acc
  | f :: rest, acc, silence =>
    let acc' := acc ++ [f]
    let silence' := if voice_volume_threshold < volume f then 0 else silence + 1
    if min_recording_chunks < acc'.length ∧ silence_threshold < silence' then
      acc'
    else
      recordLoop rest acc' silence'

/-- The frames accumulated by a recording session fed the given stream. -/
def capturedFrames (input : List Frame) : List Frame :=
  recordLoop input [] 0

/-- Source `record_audio_improved`: returns `b''.join(frames)` when any frame was
captured and `None` otherwise. -/
def record_audio_improved (input : List Frame) : Option (List Int) :=
  let fs := capturedFrames input
  if fs = [] then none else some fs.flatten

/-! ### `audio_engine.play_audio_improved` (playback chain)

The playback environment records, for the call under study, which backends
are available and whether each would succeed on the temporary file. -/

/-- Availability/outcome of the playback backends for one call. -/
structure PlaybackEnv where
  hasPygame : Bool
  pygameOk : Bool
  systemCmdOk : Bool
  defaultAppOk : Bool
deriving DecidableEq, Repr

/-- Observable effects of one `play_audio_improved` call. -/
structure PlaybackResult where
  success : Bool
  wroteTempFile : Bool
  backendsTried : Nat
deriving DecidableEq, Repr

/-- Source `play_audio_improved`: empty input returns `False` at once; otherwise the
bytes are written to a scoped temporary file and the backends are tried in
order pygame → system command → default application, stopping at the first
success. -/
def play_audio_improved (audio_data : String) (env : PlaybackEnv) : PlaybackResult :=
  if audio_data = "" then
    { success := false, wroteTempFile := false, backendsTried := 0 }
  else
    let pygameCount : Nat := if env.hasPygame then 1 else 0
    if env.hasPygame && env.pygameOk then
      { success := true, wroteTempFile := true, backendsTried := 1 }
    else if env.systemCmdOk then
      { success := true, wroteTempFile := true, backendsTried := pygameCount + 1 }
    else if env.defaultAppOk then
      { success := true, wroteTempFile := true, backendsTried := pygameCount + 2 }
    else
      { success := false, wroteTempFile := true, backendsTried := pygameCount + 2 }

/-! ### `ai_engine._clean_text_for_tts` (text normalization) -/

/-- The abbreviation table of `_clean_text_for_tts`, in Python dict
insertion order. -/
def abbrevTable : List (String × String) :=
  [("e.g.", "for example"), ("i.e.", "that is"), ("etc.", "etcetera"),
   ("vs.", "versus"), ("Mr.", "Mister"), ("Dr.", "Doctor"),
   ("Prof.", "Professor")]

/-- Model of Python `s.endswith(('.', '!', '?'))`: the last character, when
there is one, is terminal punctuation. -/
def endsWithTerminal (s : String) : Bool :=
  match s.data.getLast? with
  | some c => c == '.' || c == '!' || c == '?'
  | none => false

/-- Source `_clean_text_for_tts`: strip markdown markers, expand abbreviations,
collapse repeated punctuation, strip whitespace, and append a period when the
result is non-empty and lacks terminal punctuation. -/
def clean_text_for_tts (text : String) : String :=
  let c1 := pyReplace (pyReplace (pyReplace text "*" "") "_" "") "#" ""
  let c2 := pyReplace (pyReplace c1 "```" "") "`" ""
  let c3 := abbrevTable.foldl (fun s pr => pyReplace s pr.1 pr.2) c2
  let c4 := pyReplace (pyReplace (pyReplace c3 "..." ".") "!!" "!") "??" "?"
  let c5 := pyStrip c4
  if c5 ≠ "" ∧ endsWithTerminal c5 = false then c5 ++ "." else c5

/-! ### `ai_engine` TTS provider chain

`tts_mode` takes the Python string values `"elevenlabs"`, `"gtts"`,
`"local"`, `"system"`; `localEngine` stands for `"local"`.  The environment
fixes what each external synthesis collaborator would return during the call
under study.  Each provider call is instrumented with the list of providers
it attempts, in order. -/

/-- The value of `self.tts_mode`. -/
inductive TTSMode where
  | elevenlabs
  | gtts
  | localEngine
  | system
deriving DecidableEq, Repr

/-- Mutable engine state relevant to synthesis. -/
structure EngineState where
  tts_mode : TTSMode
  has_tts_client : Bool
deriving DecidableEq, Repr

/-- Outcomes of the external synthesis collaborators for one call:
`elevenlabsChunks` is the chunk list produced by the ElevenLabs stream
(`none` models an exception), `gttsRead`/`localRead` are the bytes read back
from the file each engine wrote (`none` models an exception anywhere in that
provider), `hasPyttsx3` is `HAS_PYTTSX3`, and `systemOk` tells whether the
platform speech command succeeds. -/
structure TTSEnv where
  elevenlabsChunks : Option (List String)
  gttsRead : Option String
  localRead : Option String
  hasPyttsx3 : Bool
  systemOk : Bool
deriving DecidableEq, Repr

/-- Result of a synthesis call: updated state, optional audio bytes, and the
providers attempted, in order. -/
structure TTSResult where
  state : EngineState
  audio : Option String
  attempts : List TTSMode
deriving DecidableEq, Repr

/-- The dummy value `b"system_tts_played"` returned by `_system_tts` to
signal that speech was already rendered natively. -/
def system_tts_played : String := "system_tts_played"

/-- Source `_system_tts`: plays via the platform speech facility and returns the
`system_tts_played` sentinel on success, `None` on total failure. -/
def system_tts (env : TTSEnv) : Option String × List TTSMode :=
  (if env.systemOk then some system_tts_played else none, [TTSMode.system])

/-- Source `_local_tts`: pyttsx3 synthesis to a file; anything but a read-back of
more than 1000 bytes falls through to `_system_tts`.  Does not write
`tts_mode`. -/
def local_tts (env : TTSEnv) : Option String × List TTSMode :=
  let fallback := let r := system_tts env; (r.1, TTSMode.localEngine :: r.2)
  if env.hasPyttsx3 then
    match env.localRead with
    | some b => if 1000 < b.length then (some b, [TTSMode.localEngine]) else fallback
    | none => fallback
  else
    fallback

/-- Source `_gtts_tts`: gTTS synthesis to a file; anything but a read-back of more
than 1000 bytes falls through to `_system_tts`.  Does not write `tts_mode`. -/
def gtts_tts (env : TTSEnv) : Option String × List TTSMode :=
  match env.gttsRead with
  | some b =>
    if 1000 < b.length then (some b, [TTSMode.gtts])
    else let r := system_tts env; (r.1, TTSMode.gtts :: r.2)
  | none => let r := system_tts env; (r.1, TTSMode.gtts :: r.2)

/-- Source `_elevenlabs_tts`: joins the streamed chunks; on an empty stream or an
exception it sets `self.tts_mode = "local"` and falls through to
`_local_tts`. -/
def elevenlabs_tts (env : TTSEnv) (st : EngineState) : TTSResult :=
  let fail : TTSResult :=
    let st' := { st with tts_mode := TTSMode.localEngine }
    let r := local_tts env
    { state := st', audio := r.1, attempts := TTSMode.elevenlabs :: r.2 }
  match env.elevenlabsChunks with
  | some chunks =>
    if chunks = [] then fail
    else { state := st, audio := some (String.join chunks),
           attempts := [TTSMode.elevenlabs] }
  | none => fail

/-- Source `text_to_speech`: reject blank text, clean it, then dispatch on
`tts_mode` — `"elevenlabs"` (when a client exists) to `_elevenlabs_tts`,
`"gtts"` to `_gtts_tts`, and everything else to `_system_tts`.  The
`except` clause of the source calls an undefined method
`_switch_to_next_provider`, but it is unreachable for provider failures
because every provider catches its own exceptions. -/
def text_to_speech (env : TTSEnv) (st : EngineState) (text : String) : TTSResult :=
  if pyStrip text = "" then
    { state := st, audio := none, attempts := [] }
  else
    let _clean := clean_text_for_tts text
    if st.tts_mode = TTSMode.elevenlabs ∧ st.has_tts_client then
      elevenlabs_tts env st
    else if st.tts_mode = TTSMode.gtts then
      let r := gtts_tts env
      { state := st, audio := r.1, attempts := r.2 }
    else
      let r := system_tts env
      { state := st, audio := r.1, attempts := r.2 }

/-- Preference rank of a mode in the provider order of the specification:
PrimaryCloud (elevenlabs) before SecondaryCloud (gtts) before LocalEngine
(local) before SystemNative (system). -/
def modeRank : TTSMode → Nat
  | TTSMode.elevenlabs => 0
  | TTSMode.gtts => 1
  | TTSMode.localEngine => 2
  | TTSMode.system => 3

/-- Modelled from the spec: the next value in the `SynthesisMode` order
(the demotion target the claim asserts for a single step). -/
def specNextMode : TTSMode → TTSMode
  | TTSMode.elevenlabs => TTSMode.gtts
  | TTSMode.gtts => TTSMode.localEngine
  | TTSMode.localEngine => TTSMode.system
  | TTSMode.system => TTSMode.system

/-- The engine state after a sequence of `text_to_speech` calls, each with
its own collaborator outcomes and input text. -/
def runTTSCalls : List (TTSEnv × String) → EngineState → EngineState
  | [], st => st
  | c :: rest, st => runTTSCalls rest (text_to_speech c.1 st c.2).state

/-! ### `ai_engine.get_response` (conversation history) -/

/-- The fixed apology returned when the external responder raises. -/
def apologyMessage : String :=
  "I apologize, I\x27m experiencing some technical difficulties at the moment."

/-- Source `get_response`: append the user turn, call the external responder, and
on success append the (stripped) assistant turn and enforce the history
bound via `history[-limit:]`; on a responder exception return the apology
with the history left as it was after the user-turn append. -/
def get_response (hist : List (String × String)) (limit : Nat)
    (user_input : String) (responder : Except String String) :
    List (String × String) × String :=
  let hist1 := hist ++ [("user", user_input)]
  match responder with
  | Except.ok text =>
    let ai_response := pyStrip text
    let hist2 := hist1 ++ [("assistant", ai_response)]
    -- Python `hist2[-limit:]` keeps the last `limit` turns, except that a
    -- limit of zero slices the whole list.
    let hist3 :=
      if limit < hist2.length ∧ limit ≠ 0 then hist2.drop (hist2.length - limit)
      else hist2
    (hist3, ai_response)
  | Except.error _ => (hist1, apologyMessage)

/-! ### `friday_wake_word` (wake-phrase set and matcher) -/

/-- The initial `wake_phrases` list. -/
def initial_wake_phrases : List String :=
  ["friday", "hey friday", "ok friday", "hello friday", "hi friday"]

/-- Normalization applied by `add_wake_phrase`/`remove_wake_phrase`:
`phrase.lower().strip()`. -/
def normalizePhrase (p : String) : String := pyStrip (pyLower p)

/-- Source `add_wake_phrase`: append the normalized phrase when it is non-empty and
not already present. -/
def add_wake_phrase (st : List String) (p : String) : List String :=
  let q := normalizePhrase p
  if q ≠ "" ∧ q ∉ st then st ++ [q] else st

/-- Source `remove_wake_phrase`: remove the normalized phrase only when it is
present and more than one phrase remains. -/
def remove_wake_phrase (st : List String) (p : String) : List String :=
  let q := normalizePhrase p
  if q ∈ st ∧ 1 < st.length then st.erase q else st

/-- One runtime mutation of the wake-phrase set. -/
inductive WakeOp where
  | add (p : String)
  | remove (p : String)

/-- Apply one wake-phrase mutation. -/
def applyWakeOp (st : List String) : WakeOp → List String
  | WakeOp.add p => add_wake_phrase st p
  | WakeOp.remove p => remove_wake_phrase st p

/-- Apply a sequence of wake-phrase mutations, oldest first. -/
def runWakeOps (ops : List WakeOp) (st : List String) : List String :=
  ops.foldl applyWakeOp st

/-- A word character for the purposes of the regex boundary `\b`. -/
def isWordChar (c : Char) : Bool := c.isAlphanum || c == '_'

/-- Split a character list into its maximal runs of word characters. -/
def wordsAux : List Char → List Char → List (List Char)
  | [], cur => if cur.isEmpty then [] else [cur.reverse]
  | c :: rest, cur =>
    if isWordChar c then wordsAux rest (c :: cur)
    else if cur.isEmpty then wordsAux rest []
    else cur.reverse :: wordsAux rest []

/-- The words of a text, used to evaluate word-boundary regex patterns. -/
def wordsOf (s : List Char) : List (List Char) := wordsAux s []

/-- Tail matcher for the regex `fri+day`: accepts `i* ++ "day"`. -/
def iStarDay : List Char → Bool
  | ['d', 'a', 'y'] => true
  | 'i' :: rest => iStarDay rest
  | _ => false

/-- Matcher for the regex `\bfri+day\b` applied to one word. -/
def matchesFriPlusDay (w : List Char) : Bool :=
  match w with
  | 'f' :: 'r' :: 'i' :: rest => iStarDay rest
  | _ => false

/-- One word matches the fuzzy pattern set `\bfriday\b`, `\bfri+day\b`,
`\bfridie\b`, `\bfridey\b`. -/
def wordMatchesFuzzy (w : List Char) : Bool :=
  w == "friday".data || matchesFriPlusDay w ||
    w == "fridie".data || w == "fridey".data

/-- The direct-substring pass of `_contains_wake_word`: some configured
phrase occurs in the text. -/
def directWakeMatch (phrases : List String) (t : List Char) : Bool :=
  phrases.any (fun p => strContains t p.data)

/-- The fuzzy-pattern pass of `_contains_wake_word`: some word of the text
matches one of the mispronunciation patterns. -/
def fuzzyWakeMatch (t : List Char) : Bool :=
  (wordsOf t).any wordMatchesFuzzy

/-- Source `_contains_wake_word`: lower-case and strip the text, then try direct
substring containment of each phrase, then the fuzzy patterns. -/
def contains_wake_word (phrases : List String) (text : String) : Bool :=
  let t := (pyStrip (pyLower text)).data
  directWakeMatch phrases t || fuzzyWakeMatch t

/-! ### `main_window` wake-trigger handling and playback dispatch -/

/-- The GUI state flags that gate the voice pipeline. -/
structure WindowState where
  is_recording : Bool
  is_speaking : Bool
deriving DecidableEq, Repr

/-- Source `start_automatic_voice_recording`: a no-op when a recording is already
in progress, otherwise marks recording active and starts a session.  The
boolean reports whether a new recording session was started. -/
def start_automatic_voice_recording (st : WindowState) : WindowState × Bool :=
  if st.is_recording then (st, false)
  else ({ st with is_recording := true }, true)

/-- Source `on_wake_word_detected`: the registered wake callback; it schedules
`start_automatic_voice_recording` on the UI thread. -/
def on_wake_word_detected (st : WindowState) : WindowState × Bool :=
  start_automatic_voice_recording st

/-- The playback step of `speak_response.speak_async`: `if audio_data:`
guards the call to `play_audio_improved`, so playback runs exactly when the
synthesis result is neither `None` nor empty.  Returns `none` when playback
was not invoked. -/
def speak_response_playback (audio : Option String) (env : PlaybackEnv) :
    Option PlaybackResult :=
  match audio with
  | some b => if b = "" then none else some (play_audio_improved b env)
  | none => none

/-! ### Helper lemmas -/

theorem data_append_eq (s t : String) : (s ++ t).data = s.data ++ t.data := by
  cases s; cases t; rfl

theorem endsWithTerminal_append_dot (s : String) :
    endsWithTerminal (s ++ ".") = true := by
  unfold endsWithTerminal
  rw [data_append_eq]
  have h : (("." : String).data) = ['.'] := rfl
  rw [h, List.getLast?_concat]
  rfl

theorem recordLoop_length_le (l : List Frame) :
    ∀ (acc : List Frame) (s : Nat), acc.length ≤ (recordLoop l acc s).length := by
  induction l with
  | nil => intro acc s; simp [recordLoop]
  | cons f rest ih =>
    intro acc s
    have h1 : acc.length ≤ (acc ++ [f]).length := by simp
    simp only [recordLoop]
    repeat' split
    all_goals first
      | exact h1
      | exact le_trans h1 (ih _ _)

theorem capturedFrames_ne_nil (input : List Frame) (h : input ≠ []) :
    capturedFrames input ≠ [] := by
  match input with
  | [] => exact absurd rfl h
  | f :: rest =>
    have hlen : 1 ≤ (recordLoop (f :: rest) [] 0).length := by
      have h1 : 1 ≤ ([] ++ [f] : List Frame).length := by simp
      unfold recordLoop
      repeat' split
      all_goals first
        | exact h1
        | exact le_trans h1 (recordLoop_length_le rest _ _)
    exact List.ne_nil_of_length_pos (by unfold capturedFrames; omega)

theorem recordLoop_quiet (l : List Frame) :
    ∀ acc : List Frame, (∀ f ∈ l, volume f ≤ voice_volume_threshold) →
      acc.length ≤ 30 → 31 - acc.length ≤ l.length →
      recordLoop l acc acc.length = acc ++ l.take (31 - acc.length) := by
  induction l with
  | nil =>
    intro acc _ h30 hlen
    simp only [List.length_nil] at hlen
    omega
  | cons f rest ih =>
    intro acc hq h30 hlen
    have hv : ¬ (voice_volume_threshold < volume f) := by
      have := hq f (List.mem_cons_self f rest)
      omega
    simp only [recordLoop, if_neg hv, List.length_append, List.length_cons,
      List.length_singleton, List.length_nil] at *
    by_cases hcase : acc.length = 30
    · rw [if_pos]
      · have h1 : 31 - acc.length = 1 := by omega
        rw [h1]
        simp
      · constructor
        · unfold min_recording_chunks; omega
        · unfold silence_threshold; omega
    · rw [if_neg]
      · have heq : acc.length + 1 = (acc ++ [f]).length := by simp
        rw [heq, ih (acc ++ [f])
          (fun g hg => hq g (List.mem_cons_of_mem f hg)) (by simp; omega)
          (by simp; omega)]
        have h31 : 31 - acc.length = (31 - (acc ++ [f]).length) + 1 := by
          simp; omega
        rw [h31, List.take_succ_cons]
        simp
      · intro hand
        have := hand.2
        unfold silence_threshold at this
        omega

theorem applyWakeOp_ne_nil (st : List String) (op : WakeOp) (h : st ≠ []) :
    applyWakeOp st op ≠ [] := by
  cases op with
  | add p =>
    show (if normalizePhrase p ≠ "" ∧ normalizePhrase p ∉ st
          then st ++ [normalizePhrase p] else st) ≠ []
    split
    · simp
    · exact h
  | remove p =>
    show (if normalizePhrase p ∈ st ∧ 1 < st.length
          then st.erase (normalizePhrase p) else st) ≠ []
    split
    case isTrue hc =>
      have hlen := List.length_erase_of_mem hc.1
      have := hc.2
      exact List.ne_nil_of_length_pos (by omega)
    case isFalse => exact h

theorem runWakeOps_ne_nil (ops : List WakeOp) :
    ∀ st : List String, st ≠ [] → runWakeOps ops st ≠ [] := by
  induction ops with
  | nil => intro st h; exact h
  | cons op rest ih =>
    intro st h
    exact ih (applyWakeOp st op) (applyWakeOp_ne_nil st op h)

theorem elevenlabs_tts_state (env : TTSEnv) (st : EngineState) :
    (elevenlabs_tts env st).state = st ∨
      (elevenlabs_tts env st).state = { st with tts_mode := TTSMode.localEngine } := by
  unfold elevenlabs_tts
  cases henv : env.elevenlabsChunks with
  | none => right; rfl
  | some chunks =>
    by_cases hc : chunks = []
    · right; simp [hc]
    · left; simp [hc]

theorem text_to_speech_state (env : TTSEnv) (st : EngineState) (text : String) :
    (text_to_speech env st text).state = st ∨
      ((text_to_speech env st text).state = { st with tts_mode := TTSMode.localEngine } ∧
        st.tts_mode = TTSMode.elevenlabs) := by
  unfold text_to_speech
  split
  · left; rfl
  · split
    case isTrue hmode =>
      rcases elevenlabs_tts_state env st with h | h
      · left; exact h
      · right; exact ⟨h, hmode.1⟩
    case isFalse =>
      split
      · left; rfl
      · left; rfl

theorem modeRank_step (env : TTSEnv) (st : EngineState) (text : String) :
    modeRank st.tts_mode ≤ modeRank (text_to_speech env st text).state.tts_mode := by
  rcases text_to_speech_state env st text with h | ⟨h, hmode⟩
  · rw [h]
  · rw [h, hmode]
    simp [modeRank]

/-! ### Claim theorems -/

/-- C1 counterexample: starting at `tts_mode = "elevenlabs"` with a live
client, when every provider fails the call does not demote one step to the
next value in the order (it jumps to `"local"`, skipping `"gtts"`), and it
attempts a third provider (system-native) after the retried one also fails,
instead of returning failure after one demotion-and-retry. -/
theorem C1_counterexample :
    (text_to_speech
        { elevenlabsChunks := none, gttsRead := none, localRead := none,
          hasPyttsx3 := true, systemOk := false }
        { tts_mode := TTSMode.elevenlabs, has_tts_client := true }
        "Hello").state.tts_mode ≠ specNextMode TTSMode.elevenlabs ∧
    (text_to_speech
        { elevenlabsChunks := none, gttsRead := none, localRead := none,
          hasPyttsx3 := true, systemOk := false }
        { tts_mode := TTSMode.elevenlabs, has_tts_client := true }
        "Hello").attempts =
      [TTSMode.elevenlabs, TTSMode.localEngine, TTSMode.system] := by decide

/-- Whether the pyttsx3 local engine produces a valid clip in this
environment (present, and the read-back exceeds the 1000-byte floor). -/
def localTTSSucceeds (env : TTSEnv) : Bool :=
  env.hasPyttsx3 &&
    (match env.localRead with
     | some b => decide (1000 < b.length)
     | none => false)

/-- C1 (amended): when the provider at `tts_mode = "elevenlabs"` fails, the
mode is permanently set to `"local"` — skipping `"gtts"` — and synthesis
cascades within the same call: the local engine is retried, and when it also
fails the system-native engine is attempted as well before the call returns;
the call reports failure only when the system engine also fails. -/
theorem C1_demotion_cascades (env : TTSEnv) (st : EngineState) (text : String)
    (hmode : st.tts_mode = TTSMode.elevenlabs) (hclient : st.has_tts_client = true)
    (htext : pyStrip text ≠ "")
    (hfail : env.elevenlabsChunks = none ∨ env.elevenlabsChunks = some []) :
    (text_to_speech env st text).state = { st with tts_mode := TTSMode.localEngine } ∧
    (text_to_speech env st text).attempts =
      (if localTTSSucceeds env then [TTSMode.elevenlabs, TTSMode.localEngine]
       else [TTSMode.elevenlabs, TTSMode.localEngine, TTSMode.system]) ∧
    ((text_to_speech env st text).audio = none ↔
      localTTSSucceeds env = false ∧ env.systemOk = false) := by
  unfold text_to_speech
  rw [if_neg (by simpa using htext), if_pos ⟨hmode, hclient⟩]
  rcases env with ⟨ec, gr, lr, hp, so⟩
  rcases hfail with hec | hec <;>
    simp only at hec <;> subst hec <;>
    unfold elevenlabs_tts local_tts system_tts localTTSSucceeds <;>
    cases hp <;> cases so <;>
    rcases lr with _ | b <;>
    first
    | (by_cases hb : 1000 < b.length <;> simp [hb])
    | simp

/-- C1 witness. -/
theorem C1_witness :
    (text_to_speech
        { elevenlabsChunks := none, gttsRead := none, localRead := none,
          hasPyttsx3 := true, systemOk := false }
        { tts_mode := TTSMode.elevenlabs, has_tts_client := true } "Hello").state =
      { tts_mode := TTSMode.localEngine, has_tts_client := true } ∧
    (text_to_speech
        { elevenlabsChunks := none, gttsRead := none, localRead := none,
          hasPyttsx3 := true, systemOk := false }
        { tts_mode := TTSMode.elevenlabs, has_tts_client := true } "Hello").attempts =
      (if localTTSSucceeds
          { elevenlabsChunks := none, gttsRead := none, localRead := none,
            hasPyttsx3 := true, systemOk := false }
       then [TTSMode.elevenlabs, TTSMode.localEngine]
       else [TTSMode.elevenlabs, TTSMode.localEngine, TTSMode.system]) ∧
    ((text_to_speech
        { elevenlabsChunks := none, gttsRead := none, localRead := none,
          hasPyttsx3 := true, systemOk := false }
        { tts_mode := TTSMode.elevenlabs, has_tts_client := true } "Hello").audio = none ↔
      localTTSSucceeds
          { elevenlabsChunks := none, gttsRead := none, localRead := none,
            hasPyttsx3 := true, systemOk := false } = false ∧
        (false : Bool) = false) :=
  C1_demotion_cascades _ _ "Hello" rfl rfl (by decide) (Or.inl rfl)

/-- C2 counterexample: with the source thresholds (silence 30, minimum 10),
40 all-quiet frames do not produce a 40-frame buffer — the loop breaks as
soon as the frame count exceeds 10 and the silence count exceeds 30, which
happens at frame 31 because silence is counted from the very first frame. -/
theorem C2_counterexample :
    capturedFrames (List.replicate 40 ([0] : Frame)) =
      List.replicate 31 ([0] : Frame) ∧
    (capturedFrames (List.replicate 40 ([0] : Frame))).length ≠ 40 := by decide

/-- C2 (amended): feeding the recorder an unbroken sequence of at least 31
low-energy frames makes it stop after frame 31, and the returned buffer is
the concatenation of exactly the first 31 frames. -/
theorem C2_stops_after_31 (l : List Frame)
    (hq : ∀ f ∈ l, volume f ≤ voice_volume_threshold) (hlen : 31 ≤ l.length) :
    capturedFrames l = l.take 31 ∧
    record_audio_improved l = some (l.take 31).flatten := by
  have hcap : capturedFrames l = l.take 31 := by
    have h := recordLoop_quiet l [] hq (by simp) (by simpa using hlen)
    simpa [capturedFrames] using h
  refine ⟨hcap, ?_⟩
  have htake : (l.take 31).length = 31 := by
    rw [List.length_take]; omega
  have hne : l.take 31 ≠ [] := by
    intro hnil
    rw [hnil] at htake
    simp at htake
  unfold record_audio_improved
  rw [hcap, if_neg hne]

/-- C2 witness. -/
theorem C2_witness :
    capturedFrames (List.replicate 40 ([0] : Frame)) =
      (List.replicate 40 ([0] : Frame)).take 31 ∧
    record_audio_improved (List.replicate 40 ([0] : Frame)) =
      some ((List.replicate 40 ([0] : Frame)).take 31).flatten :=
  C2_stops_after_31 (List.replicate 40 [0]) (by decide) (by decide)

/-- C3 counterexample: a wake trigger arriving while the assistant is
speaking (`is_speaking = true`) but not recording is not ignored — it starts
a new recording session and changes the pipeline state. -/
theorem C3_counterexample :
    (on_wake_word_detected { is_recording := false, is_speaking := true }).2 = true ∧
    (on_wake_word_detected { is_recording := false, is_speaking := true }).1 ≠
      { is_recording := false, is_speaking := true } := by decide

/-- C3 (amended): a wake trigger received while a recording is in progress
is ignored (no state change, no new session); a wake trigger received at any
other time — including while the assistant is synthesizing or speaking —
starts a new recording session, because the handler only consults
`is_recording`. -/
theorem C3_trigger_guard (st : WindowState) :
    (st.is_recording = true → on_wake_word_detected st = (st, false)) ∧
    (st.is_recording = false →
      on_wake_word_detected st = ({ st with is_recording := true }, true)) := by
  constructor <;> intro h <;>
    simp [on_wake_word_detected, start_automatic_voice_recording, h]

/-- C3 witness. -/
theorem C3_witness :
    on_wake_word_detected { is_recording := true, is_speaking := false } =
      ({ is_recording := true, is_speaking := false }, false) ∧
    on_wake_word_detected { is_recording := false, is_speaking := true } =
      ({ is_recording := true, is_speaking := true }, true) :=
  ⟨(C3_trigger_guard { is_recording := true, is_speaking := false }).1 rfl,
   (C3_trigger_guard { is_recording := false, is_speaking := true }).2 rfl⟩

/-- C4: evaluating the code at the failing input.  The `system_tts_played`
sentinel is a non-empty byte string, so `speak_response`'s truthiness check
passes and the playback path is taken: `play_audio_improved` writes the
sentinel bytes to a temporary file and attempts a playback backend, instead
of skipping playback entirely as specified. -/
theorem C4_sentinel_played :
    speak_response_playback (some system_tts_played)
        { hasPygame := true, pygameOk := true, systemCmdOk := true,
          defaultAppOk := true } =
      some { success := true, wroteTempFile := true, backendsTried := 1 } ∧
    system_tts_played ≠ "" := by decide

/-- C5: within a run, `tts_mode` is monotone along the provider order.  For
every sequence of `text_to_speech` calls — whatever each external provider
returns and whatever text is synthesized — the rank of the mode in the order
elevenlabs < gtts < local < system never decreases; the only write performed
by the chain moves `"elevenlabs"` forward to `"local"`, so no call restores
a previously demoted-from mode. -/
theorem C5_mode_monotone (calls : List (TTSEnv × String)) :
    ∀ st : EngineState,
      modeRank st.tts_mode ≤ modeRank (runTTSCalls calls st).tts_mode := by
  induction calls with
  | nil => intro st; exact le_refl _
  | cons c rest ih =>
    intro st
    calc modeRank st.tts_mode
        ≤ modeRank (text_to_speech c.1 st c.2).state.tts_mode :=
          modeRank_step c.1 st c.2
      _ ≤ _ := ih (text_to_speech c.1 st c.2).state

/-- C6: the wake-phrase set stays non-empty under every sequence of
`add_wake_phrase`/`remove_wake_phrase` operations from the initial list, and
a removal attempted when only one phrase remains is rejected, leaving the
list with the same size and contents. -/
theorem C6_wake_set_nonempty :
    (∀ ops : List WakeOp, runWakeOps ops initial_wake_phrases ≠ []) ∧
    (∀ (st : List String) (p : String), st.length = 1 →
      remove_wake_phrase st p = st) := by
  constructor
  · intro ops
    exact runWakeOps_ne_nil ops initial_wake_phrases (by decide)
  · intro st p h
    unfold remove_wake_phrase
    rw [if_neg]
    intro hand
    have := hand.2
    omega

/-- C6 witness. -/
theorem C6_witness :
    runWakeOps [WakeOp.remove "friday"] initial_wake_phrases ≠ [] ∧
    remove_wake_phrase ["friday"] "friday" = ["friday"] :=
  ⟨C6_wake_set_nonempty.1 [WakeOp.remove "friday"],
   C6_wake_set_nonempty.2 ["friday"] "friday" rfl⟩

/-- C7 counterexample: the non-empty input `"*"` cleans to the empty string,
which does not end with terminal punctuation, so the claim fails as stated
for arbitrary non-empty inputs. -/
theorem C7_counterexample :
    ("*" : String) ≠ "" ∧ clean_text_for_tts "*" = "" ∧
    endsWithTerminal (clean_text_for_tts "*") = false := by decide

/-- C7 (amended): whenever `_clean_text_for_tts` returns a non-empty string,
that string ends with terminal punctuation; inputs whose markup-stripped,
whitespace-stripped content is empty yield the empty string instead. -/
theorem C7_terminal_punctuation (text : String)
    (h : clean_text_for_tts text ≠ "") :
    endsWithTerminal (clean_text_for_tts text) = true := by
  unfold clean_text_for_tts at h ⊢
  set c5 := pyStrip (pyReplace (pyReplace (pyReplace
    (abbrevTable.foldl (fun s pr => pyReplace s pr.1 pr.2)
      (pyReplace (pyReplace (pyReplace (pyReplace (pyReplace text "*" "")
        "_" "") "#" "") "```" "") "`" ""))
    "..." ".") "!!" "!") "??" "?") with hc5
  by_cases hcond : c5 ≠ "" ∧ endsWithTerminal c5 = false
  · rw [if_pos hcond] at h ⊢
    exact endsWithTerminal_append_dot c5
  · rw [if_neg hcond] at h ⊢
    rcases Decidable.not_and_iff_or_not.mp hcond with h1 | h2
    · exact absurd (Decidable.not_not.mp h1) h
    · exact Bool.eq_true_of_not_eq_false h2

/-- C7 witness. -/
theorem C7_witness :
    clean_text_for_tts "hello" ≠ "" ∧
    endsWithTerminal (clean_text_for_tts "hello") = true :=
  ⟨by decide, C7_terminal_punctuation "hello" (by decide)⟩

/-- C8: the recorder never returns an empty buffer.  It returns `None`
exactly when zero frames were captured (which happens exactly when the
stream yields no frame); otherwise it returns the concatenation of all
captured frames, trailing silence included, and that buffer is non-empty
whenever the captured frames are (as real device reads always are). -/
theorem C8_no_empty_buffer (input : List Frame) :
    (record_audio_improved input = none ↔ capturedFrames input = []) ∧
    (capturedFrames input = [] ↔ input = []) ∧
    (capturedFrames input ≠ [] →
      record_audio_improved input = some (capturedFrames input).flatten) ∧
    ((∀ f ∈ capturedFrames input, f ≠ []) →
      ∀ b, record_audio_improved input = some b → b ≠ []) := by
  refine ⟨?_, ?_, ?_, ?_⟩
  · by_cases hc : capturedFrames input = [] <;>
      simp [record_audio_improved, hc]
  · constructor
    · intro hc
      by_contra hne
      exact capturedFrames_ne_nil input hne hc
    · intro hi
      subst hi
      rfl
  · intro hc
    simp [record_audio_improved, hc]
  · intro hall b hb
    have hc : capturedFrames input ≠ [] := by
      intro hnil
      rw [record_audio_improved, hnil] at hb
      simp at hb
    have hbeq : b = (capturedFrames input).flatten := by
      rw [record_audio_improved, if_neg hc] at hb
      exact ((Option.some.injEq _ _).mp hb.symm)
    rcases hfs : capturedFrames input with _ | ⟨g, t⟩
    · exact absurd hfs hc
    · have hg : g ≠ [] := hall g (by rw [hfs]; exact List.mem_cons_self g t)
      rw [hbeq, hfs]
      simp [hg]

/-- C8 witness. -/
theorem C8_witness :
    record_audio_improved [[5]] = some (capturedFrames [[5]]).flatten ∧
    (∀ b, record_audio_improved [[5]] = some b → b ≠ []) :=
  ⟨(C8_no_empty_buffer [[5]]).2.2.1 (by decide),
   fun b hb => (C8_no_empty_buffer [[5]]).2.2.2 (by decide) b hb⟩

/-- C9: the matcher applied to the lower-cased, trimmed transcript
`"fridey"` returns a match, and it does so through the fuzzy
mispronunciation pattern set — the direct substring pass over the configured
wake phrases finds nothing. -/
theorem C9_fuzzy_fridey :
    contains_wake_word initial_wake_phrases "fridey" = true ∧
    directWakeMatch initial_wake_phrases ("fridey".data) = false ∧
    fuzzyWakeMatch ("fridey".data) = true := by decide

/-- C10: when the external responder raises, `get_response` returns the
fixed apology string and the conversation history is left exactly as it was
after the user turn was appended — the user turn remains, with no paired
assistant turn and no rollback. -/
theorem C10_no_rollback_on_error (hist : List (String × String)) (limit : Nat)
    (user_input errMsg : String) :
    get_response hist limit user_input (Except.error errMsg) =
      (hist ++ [("user", user_input)], apologyMessage) := rfl

end Friday
